import Mathlib

/-!
Shallow embedding of the nanobanan-cli job lifecycle and generation
pipeline (Rust sources under src/), together with theorems settling the
frozen claims about the natural-language specification.

Conventions of the embedding:
* Rust `String` is modelled as Lean `String` (both UTF-8); Rust byte-level
  string operations (`str::len`, byte-range slicing) are modelled over
  `String.data` with `Char.utf8Size`, and a Rust panic is `Option.none`.
* Machine integers that can overflow are `Nat` with an explicit `% 256`
  (the `u8` image-index counter of `process_response`).
* `Utc::now()` is an explicit `now : Nat` argument threaded through every
  mutating operation.
* Fallible I/O (base64 decode, filesystem writes, the HTTP call, the
  store) is an explicit environment of oracles passed to the functions
  that perform it.
-/

namespace NanoBanana

/-- `JobAction` from src/core/job.rs. -/
inductive JobAction where
  | Generate
  | Edit (source_image : String)
deriving DecidableEq, Repr

/-- `JobStatus` from src/core/job.rs. -/
inductive JobStatus where
  | Queued
  | Running (progress : Nat)
  | Completed
  | Failed (error : String)
  | Cancelled
deriving DecidableEq, Repr

/-- `JobStatus::is_terminal` from src/core/job.rs. -/
def JobStatus.is_terminal : JobStatus → Bool
  | .Completed => true
  | .Failed _ => true
  | .Cancelled => true
  | _ => false

/-- `GenerateParams` from src/core/params.rs. -/
structure GenerateParams where
  prompt : String
  aspect_ratio : String
  size : String
  model : String
  num_images : Nat
  seed : Option Int
  negative_prompt : Option String
  reference_image : Option String
  reference_mime_type : Option String
deriving DecidableEq, Repr

/-- `GenerateParams::default` from src/core/params.rs. -/
def GenerateParams.defaultParams : GenerateParams :=
  { prompt := ""
    aspect_ratio := "1:1"
    size := "1K"
    model := "gemini-3-pro-image-preview"
    num_images := 1
    seed := none
    negative_prompt := none
    reference_image := none
    reference_mime_type := none }

/-- `GenerateParams::new` from src/core/params.rs. -/
def GenerateParams.new (prompt : String) : GenerateParams :=
  { GenerateParams.defaultParams with prompt := prompt }

/-- `GenerateParams::with_reference_image` from src/core/params.rs:
sets the base64 payload and the mime tag together. -/
def GenerateParams.with_reference_image (p : GenerateParams)
    (base64_data mime_type : String) : GenerateParams :=
  { p with reference_image := some base64_data,
           reference_mime_type := some mime_type }

/-- `JobImage` from src/core/job.rs. `index` is a `u8` in Rust; every
value stored by the code is `< 256`. -/
structure JobImage where
  index : Nat
  data : Option String
  path : Option String
  mime_type : String
deriving DecidableEq, Repr

/-- `Job` from src/core/job.rs. Timestamps are abstract ticks. -/
structure Job where
  id : String
  action : JobAction
  params : GenerateParams
  status : JobStatus
  images : List JobImage
  model : String
  created_at : Nat
  updated_at : Nat
  parent_id : Option String
deriving DecidableEq, Repr

/-- `Job::new_generate` from src/core/job.rs; the random uuid-derived id
and the clock are explicit arguments. -/
def Job.new_generate (id : String) (params : GenerateParams) (now : Nat) : Job :=
  { id := id
    action := .Generate
    model := params.model
    params := params
    status := .Queued
    images := []
    created_at := now
    updated_at := now
    parent_id := none }

/-- `Job::new_edit` from src/core/job.rs. -/
def Job.new_edit (id : String) (params : GenerateParams) (source_image : String)
    (now : Nat) : Job :=
  { Job.new_generate id params now with action := .Edit source_image }

/-- `Job::set_running` from src/core/job.rs: `progress.min(100)`. -/
def Job.set_running (j : Job) (progress : Nat) (now : Nat) : Job :=
  { j with status := .Running (min progress 100), updated_at := now }

/-- `Job::set_completed` from src/core/job.rs. -/
def Job.set_completed (j : Job) (now : Nat) : Job :=
  { j with status := .Completed, updated_at := now }

/-- `Job::set_failed` from src/core/job.rs. -/
def Job.set_failed (j : Job) (error : String) (now : Nat) : Job :=
  { j with status := .Failed error, updated_at := now }

/-- `Job::set_cancelled` from src/core/job.rs. -/
def Job.set_cancelled (j : Job) (now : Nat) : Job :=
  { j with status := .Cancelled, updated_at := now }

/-- `Job::add_image` from src/core/job.rs: pushes a fresh image holding
only the inline payload. -/
def Job.add_image (j : Job) (index : Nat) (data mime_type : String) (now : Nat) : Job :=
  { j with images := j.images ++ [{ index := index, data := some data,
                                    path := none, mime_type := mime_type }],
           updated_at := now }

/-- Byte-level slice `&s[..k]` of a Rust `&str`, over the char list of the
string: `none` models the Rust panic when `k` is not a char boundary or is
out of range. -/
def utf8Take : List Char → Nat → Option (List Char)
  | _, 0 => some []
  | [], _ + 1 => none
  | c :: cs, k + 1 =>
    if c.utf8Size ≤ k + 1 then (utf8Take cs (k + 1 - c.utf8Size)).map (c :: ·)
    else none

/-- `Job::prompt_preview` from src/core/job.rs: `prompt.len()` is the
UTF-8 byte length, the truncation slices the prompt at the raw byte
offset `max_len.saturating_sub(3)` and appends `"..."`; `none` models the
panic of that byte slice. -/
def Job.prompt_preview (j : Job) (max_len : Nat) : Option String :=
  if j.params.prompt.utf8ByteSize ≤ max_len then some j.params.prompt
  else (utf8Take j.params.prompt.data (max_len - 3)).map
    (fun cs => String.mk cs ++ "...")

/-- `Job::status_name` from src/core/job.rs. -/
def Job.status_name (j : Job) : String :=
  match j.status with
  | .Queued => "queued"
  | .Running _ => "running"
  | .Completed => "completed"
  | .Failed _ => "failed"
  | .Cancelled => "cancelled"

/-- `ContentPart` from src/api/types.rs: a text part or an inline-data
(image) part carrying a mime tag and base64 payload. -/
inductive ContentPart where
  | Text (text : String)
  | InlineData (mime_type data : String)
deriving DecidableEq, Repr

/-- `Content` from src/api/types.rs. -/
structure Content where
  parts : List ContentPart
  role : Option String
deriving DecidableEq, Repr

/-- `ImageConfig` from src/api/types.rs. -/
structure ImageConfig where
  aspect_ratio : Option String
deriving DecidableEq, Repr

/-- `GenerationConfig` from src/api/types.rs. -/
structure GenerationConfig where
  response_modalities : Option (List String)
  image_config : Option ImageConfig
deriving DecidableEq, Repr

/-- `SafetySetting` from src/api/types.rs. -/
structure SafetySetting where
  category : String
  threshold : String
deriving DecidableEq, Repr

/-- `GenerateRequest` from src/api/types.rs. -/
structure GenerateRequest where
  contents : List Content
  generation_config : Option GenerationConfig
  safety_settings : Option (List SafetySetting)
deriving DecidableEq, Repr

/-- `SafetyRating` from src/api/types.rs. -/
structure SafetyRating where
  category : String
  probability : String
deriving DecidableEq, Repr

/-- `Candidate` from src/api/types.rs. -/
structure Candidate where
  content : Option Content
  finish_reason : Option String
  finish_message : Option String
  safety_ratings : Option (List SafetyRating)
deriving DecidableEq, Repr

/-- `PromptFeedback` from src/api/types.rs. -/
structure PromptFeedback where
  block_reason : Option String
  safety_ratings : Option (List SafetyRating)
deriving DecidableEq, Repr

/-- `UsageMetadata` from src/api/types.rs. -/
structure UsageMetadata where
  prompt_token_count : Option Int
  candidates_token_count : Option Int
  total_token_count : Option Int
deriving DecidableEq, Repr

/-- `GenerateResponse` from src/api/types.rs. -/
structure GenerateResponse where
  candidates : Option (List Candidate)
  prompt_feedback : Option PromptFeedback
  usage_metadata : Option UsageMetadata
deriving DecidableEq, Repr

/-- The errors of `BananaError` (src/core/error.rs) reachable from the
modelled pipeline paths; `toMessage` below is the thiserror `Display`. -/
inductive BananaError where
  | MissingApiKey
  | ApiError (message : String)
  | GenerationFailed (msg : String)
deriving DecidableEq, Repr

/-- The `Display` strings of src/core/error.rs for the modelled errors. -/
def BananaError.toMessage : BananaError → String
  | .MissingApiKey =>
      "API key not configured. Set GEMINI_API_KEY environment variable or run: banana config set api.key <your-key>"
  | .ApiError message => "API error: " ++ message
  | .GenerationFailed msg => "Generation failed: " ++ msg

/-- `GeminiClient::build_generate_request` from src/api/mod.rs: the parts
vector starts with the text prompt; when both the reference image payload
and its mime tag are present, an inline-data part is inserted at
position 0. -/
def build_generate_request (params : GenerateParams) : GenerateRequest :=
  let parts := [ContentPart.Text params.prompt]
  let parts :=
    match params.reference_image, params.reference_mime_type with
    | some data, some mime_type => ContentPart.InlineData mime_type data :: parts
    | _, _ => parts
  { contents := [{ parts := parts, role := none }]
    generation_config := some
      { response_modalities := some ["TEXT", "IMAGE"]
        image_config := some { aspect_ratio := some params.aspect_ratio } }
    safety_settings := none }

/-- The refusal test of `process_response` (src/api/mod.rs): a finish
reason is present and is neither STOP nor MAX_TOKENS. -/
def isRefusal (c : Candidate) : Bool :=
  match c.finish_reason with
  | some reason => reason ≠ "STOP" && reason ≠ "MAX_TOKENS"
  | none => false

/-- The default refusal message of src/api/mod.rs. -/
def defaultRefusalMsg : String := "Image generation was refused by the API"

/-- The inner parts loop of `process_response`: appends each inline-data
part as the next image; the `u8` index counter wraps modulo 256. Returns
the mutated job and the counter after the loop. -/
def addParts (job : Job) (i now : Nat) : List ContentPart → Job × Nat
  | [] => (job, i)
  | .Text _ :: rest => addParts job i now rest
  | .InlineData mime_type data :: rest =>
      addParts (job.add_image i data mime_type now) ((i + 1) % 256) now rest

/-- The candidate loop of `process_response` (src/api/mod.rs): refusal
check first, then the content parts of the candidate, then the remaining
candidates; at the end the empty-images check decides Failed/Completed. -/
def goCandidates (now : Nat) : Job → Nat → List Candidate → Job × Except BananaError Unit
  | job, _, [] =>
      if job.images.isEmpty then
        (job.set_failed "No images generated" now,
         .error (.GenerationFailed "No images in response"))
      else (job.set_completed now, .ok ())
  | job, i, c :: rest =>
      if isRefusal c then
        let message := (c.finish_message).getD defaultRefusalMsg
        (job.set_failed message now, .error (.GenerationFailed message))
      else
        match c.content with
        | some content =>
            let r := addParts job i now content.parts
            goCandidates now r.1 r.2 rest
        | none => goCandidates now job i rest

/-- `GeminiClient::process_response` from src/api/mod.rs: walks
`response.candidates.unwrap_or_default()` with a `u8` image counter
starting at 0; returns the mutated job and the `Result`. -/
def process_response (job : Job) (response : GenerateResponse) (now : Nat) :
    Job × Except BananaError Unit :=
  goCandidates now job 0 (response.candidates.getD [])

/-- The inline-data parts of a parts list, as (data, mime) pairs, in
order. -/
def partsImages (parts : List ContentPart) : List (String × String) :=
  parts.filterMap (fun p =>
    match p with
    | .InlineData mime_type data => some (data, mime_type)
    | .Text _ => none)

/-- The inline-data parts of one candidate, as (data, mime) pairs, in
order: the images `process_response` collects from it. -/
def candidateImageParts (c : Candidate) : List (String × String) :=
  match c.content with
  | some content => partsImages content.parts
  | none => []

/-- All inline-data parts of a candidate list, in encounter order. -/
def candsImageParts (l : List Candidate) : List (String × String) :=
  (l.map candidateImageParts).flatten

/-- All inline-data parts of a response, in encounter order. -/
def responseImageParts (r : GenerateResponse) : List (String × String) :=
  candsImageParts (r.candidates.getD [])

/-- The images `process_response` builds from a run of parts when the
counter starts at `i`: each part becomes an inline-payload image, the
counter wrapping modulo 256. -/
def indexedFrom (i : Nat) : List (String × String) → List JobImage
  | [] => []
  | (data, mime_type) :: rest =>
      { index := i, data := some data, path := none, mime_type := mime_type } ::
        indexedFrom ((i + 1) % 256) rest

/-! ### Download phase (`GeminiClient::download_images`, src/api/mod.rs)

Filesystem effects are an oracle environment: `decode` models fallible
base64 decoding, `write` models `fs::write` success, `createDir` models
`fs::create_dir_all` success. -/

/-- Oracle environment for the download phase. -/
structure FsEnv where
  createDir : Bool
  decode : String → Option (List Nat)
  write : String → List Nat → Bool

/-- The extension choice of `download_images`: png/jpeg/webp, with png as
the default for an unknown mime tag. -/
def extFor (mime_type : String) : String :=
  if mime_type = "image/png" then "png"
  else if mime_type = "image/jpeg" then "jpg"
  else if mime_type = "image/webp" then "webp"
  else "png"

/-- The output path `output_dir.join(format "jobid_index.ext")` built by
`download_images`. -/
def imagePathFor (outputDir jobId : String) (index : Nat) (mime_type : String) : String :=
  outputDir ++ "/" ++ jobId ++ "_" ++ toString index ++ "." ++ extFor mime_type

/-- Result of the download loop: the image list after the loop, the
collected paths, the writes actually performed on disk, and the error of
the first failure (`none` when the loop finished). -/
structure DlResult where
  images : List JobImage
  paths : List String
  writes : List (String × List Nat)
  err : Option String
deriving Repr

/-- The image loop of `download_images`: an image with no inline payload
is skipped; otherwise decode, write, record the path on the image and
clear the payload; a decode or write failure returns early (the `?`
operator), leaving the current and all remaining images untouched while
keeping earlier mutations and earlier on-disk writes. -/
def dlGo (env : FsEnv) (jobId outputDir : String) : List JobImage → DlResult
  | [] => ⟨[], [], [], none⟩
  | img :: rest =>
    match img.data with
    | none =>
        let r := dlGo env jobId outputDir rest
        ⟨img :: r.images, r.paths, r.writes, r.err⟩
    | some data =>
        let path := imagePathFor outputDir jobId img.index img.mime_type
        match env.decode data with
        | none => ⟨img :: rest, [], [], some "Failed to decode base64 image"⟩
        | some bytes =>
            if env.write path bytes then
              let r := dlGo env jobId outputDir rest
              ⟨{ img with path := some path, data := none } :: r.images,
               path :: r.paths, (path, bytes) :: r.writes, r.err⟩
            else ⟨img :: rest, [], [], some "write failed"⟩

/-- Outcome of `download_images`: final job, returned `Result`, and the
writes performed on disk (even those preceding a failure). -/
structure DownloadOutcome where
  job : Job
  result : Except String (List String)
  writes : List (String × List Nat)
deriving Repr

/-- `GeminiClient::download_images` from src/api/mod.rs. -/
def download_images (env : FsEnv) (job : Job) (outputDir : String) : DownloadOutcome :=
  if env.createDir then
    let r := dlGo env job.id outputDir job.images
    match r.err with
    | some msg => ⟨{ job with images := r.images }, .error msg, r.writes⟩
    | none => ⟨{ job with images := r.images }, .ok r.paths, r.writes⟩
  else ⟨job, .error "create dir failed", []⟩

/-- The effect of one successful download step on one image. -/
def dlOne (jobId outputDir : String) (img : JobImage) : JobImage :=
  match img.data with
  | none => img
  | some _ =>
      { img with path := some (imagePathFor outputDir jobId img.index img.mime_type),
                 data := none }

/-- Whether the download step for one image succeeds under `env`. -/
def dlOk (env : FsEnv) (jobId outputDir : String) (img : JobImage) : Bool :=
  match img.data with
  | none => true
  | some data =>
      match env.decode data with
      | none => false
      | some bytes => env.write (imagePathFor outputDir jobId img.index img.mime_type) bytes

/-- The error message produced when the download step for `img` fails. -/
def dlFailMsg (env : FsEnv) (img : JobImage) : String :=
  match img.data with
  | none => ""
  | some data =>
      match env.decode data with
      | none => "Failed to decode base64 image"
      | some _ => "write failed"

/-- Paths collected for a run of successfully downloaded images. -/
def dlPaths (jobId outputDir : String) : List JobImage → List String
  | [] => []
  | img :: rest =>
    match img.data with
    | none => dlPaths jobId outputDir rest
    | some _ =>
        imagePathFor outputDir jobId img.index img.mime_type ::
          dlPaths jobId outputDir rest

/-- Disk writes performed for a run of successfully downloaded images. -/
def dlWrites (env : FsEnv) (jobId outputDir : String) : List JobImage → List (String × List Nat)
  | [] => []
  | img :: rest =>
    match img.data with
    | none => dlWrites env jobId outputDir rest
    | some data =>
        match env.decode data with
        | none => dlWrites env jobId outputDir rest
        | some bytes =>
            (imagePathFor outputDir jobId img.index img.mime_type, bytes) ::
              dlWrites env jobId outputDir rest

/-! ### Batch command pipeline (`run`, src/cli/commands/generate.rs)

The store is modelled as the ordered list of snapshots persisted by
`insert_job`/`update_job` (store operations themselves are assumed to
succeed); the service call is an oracle. -/

/-- Errors a pipeline run can return to the caller. -/
inductive RunError where
  | pipeErr (e : BananaError)
  | downloadErr (msg : String)
deriving DecidableEq, Repr

/-- Oracle environment of one batch `generate` run. -/
structure PipelineEnv where
  apiKey : Option String
  serviceResult : Except BananaError GenerateResponse
  autoDownload : Bool
  outputDir : String
  fs : FsEnv

/-- Outcome of one batch `generate` run: snapshots persisted to the
store in order, the in-memory job at return time, and the returned
`Result`. -/
structure RunOutcome where
  persisted : List Job
  job : Job
  result : Except RunError Unit
deriving Repr

/-- `run` from src/cli/commands/generate.rs, from the point where the
fresh `Queued` job exists: insert it; build the client (a missing API key
propagates the error with no further store write); mark Running and
update; call the service; on a service or response-processing error mark
Failed, update, and return the error; otherwise optionally download (a
download failure propagates before the final update) and finish with a
final update. -/
def cliGenerateRun (env : PipelineEnv) (job0 : Job) (now : Nat) : RunOutcome :=
  let persisted := [job0]
  match env.apiKey with
  | none => ⟨persisted, job0, .error (.pipeErr .MissingApiKey)⟩
  | some _ =>
    let job1 := job0.set_running 0 now
    let persisted := persisted ++ [job1]
    match env.serviceResult with
    | .error e =>
        let job2 := job1.set_failed e.toMessage now
        ⟨persisted ++ [job2], job2, .error (.pipeErr e)⟩
    | .ok response =>
        let pr := process_response job1 response now
        match pr.2 with
        | .error e =>
            let job2 := (pr.1).set_failed e.toMessage now
            ⟨persisted ++ [job2], job2, .error (.pipeErr e)⟩
        | .ok _ =>
            let job2 := pr.1
            if env.autoDownload then
              let dl := download_images env.fs job2 env.outputDir
              match dl.result with
              | .error msg => ⟨persisted, dl.job, .error (.downloadErr msg)⟩
              | .ok _ => ⟨persisted ++ [dl.job], dl.job, .ok ()⟩
            else ⟨persisted ++ [job2], job2, .ok ()⟩

/-! ### Interactive session (src/tui/app.rs, src/tui/event_handler.rs)

The database is modelled as the recency-ordered list `store` carried in
the state; `list_jobs(50, None)` is `store.take 50` and `delete_job`
filters by id. -/

/-- `AppMode` from src/tui/app.rs. -/
inductive AppMode where
  | Main
  | Input
  | JobDetail
  | Settings
deriving DecidableEq, Repr

/-- The session state of `App` (src/tui/app.rs) relevant to the job list
and main-mode handling, plus the modelled store. -/
structure App where
  mode : AppMode
  input : String
  cursor_pos : Nat
  jobs : List Job
  selected_job : Nat
  current_job : Option Job
  status_message : Option String
  error_message : Option String
  should_quit : Bool
  settings_selected : Nat
  settings_editing : Bool
  generating : Bool
  store : List Job
deriving DecidableEq, Repr

/-- `App::load_jobs` from src/tui/app.rs: refresh `jobs` from the store,
then clamp the selection only when it is out of range and the new list is
nonempty. -/
def App.load_jobs (app : App) : App :=
  let app := { app with jobs := app.store.take 50 }
  if app.jobs.length ≤ app.selected_job ∧ app.jobs ≠ [] then
    { app with selected_job := app.jobs.length - 1 }
  else app

/-- `App::set_status` from src/tui/app.rs. -/
def App.set_status (app : App) (msg : String) : App :=
  { app with status_message := some msg, error_message := none }

/-- `App::selected_job` (the accessor method) from src/tui/app.rs:
`self.jobs.get(self.selected_job)`. -/
def App.selectedJob (app : App) : Option Job :=
  app.jobs[app.selected_job]?

/-- `App::select_previous` from src/tui/app.rs. -/
def App.select_previous (app : App) : App :=
  if 0 < app.selected_job then { app with selected_job := app.selected_job - 1 }
  else app

/-- `App::select_next` from src/tui/app.rs (`len().saturating_sub(1)`). -/
def App.select_next (app : App) : App :=
  if app.selected_job < app.jobs.length - 1 then
    { app with selected_job := app.selected_job + 1 }
  else app

/-- The key codes consumed by `handle_main_input`. -/
inductive KeyCode where
  | Up
  | Down
  | Home
  | End
  | Enter
  | Esc
  | Char (c : Char)
  | Other
deriving DecidableEq, Repr

/-- `handle_main_input` from src/tui/event_handler.rs (the `d` branch
deletes from the store and reloads; `generate_image` is not reachable
from main mode). -/
def handle_main_input (app : App) (key : KeyCode) : App :=
  match key with
  | .Up => app.select_previous
  | .Down => app.select_next
  | .Home => { app with selected_job := 0 }
  | .End =>
      if app.jobs ≠ [] then { app with selected_job := app.jobs.length - 1 }
      else app
  | .Enter =>
      match app.selectedJob with
      | some job => { app with current_job := some job, mode := .JobDetail }
      | none => app
  | .Esc => { app with should_quit := true }
  | .Char c =>
      if c = 'k' then app.select_previous
      else if c = 'j' then app.select_next
      else if c = 'i' ∨ c = '/' then
        { app with mode := .Input, status_message := none, error_message := none }
      else if c = 's' then
        { app with mode := .Settings, settings_selected := 0, settings_editing := false }
      else if c = 'r' then (App.load_jobs app).set_status "Refreshed job list"
      else if c = 'd' then
        match app.selectedJob with
        | some job =>
            let app := { app with store := app.store.filter (fun j => j.id ≠ job.id) }
            (App.load_jobs app).set_status ("Deleted job: " ++ job.id)
        | none => app
      else if c = 'q' then { app with should_quit := true }
      else app
  | .Other => app

/-- A concrete job used by concrete-input theorems. -/
def sampleJob : Job := Job.new_generate "bn_sample01" (GenerateParams.new "prompt") 0

/-- A job whose prompt is four two-byte characters (8 UTF-8 bytes). -/
def alphaJob : Job := Job.new_generate "bn_alpha001" (GenerateParams.new "αααα") 0

/-- A candidate with a normal stop and two image parts around a text part. -/
def okCandidate : Candidate :=
  { content := some
      { parts := [ContentPart.InlineData "image/png" "d0",
                  ContentPart.Text "note",
                  ContentPart.InlineData "image/jpeg" "d1"]
        role := none }
    finish_reason := some "STOP"
    finish_message := none
    safety_ratings := none }

/-- A refusing candidate (safety finish) carrying a message and an image
part that must not be collected. -/
def refusalCandidate : Candidate :=
  { content := some
      { parts := [ContentPart.InlineData "image/png" "dx"] , role := none }
    finish_reason := some "SAFETY"
    finish_message := some "blocked"
    safety_ratings := none }

/-- The shape of a job after a run of image appends: the new images are
appended and `updated_at` was touched iff at least one append happened. -/
def withImages (job : Job) (imgs : List JobImage) (now : Nat) : Job :=
  { job with images := job.images ++ imgs,
             updated_at := if imgs.isEmpty then job.updated_at else now }

/-! ### Concrete session states and request data used by the theorems -/

/-- An app state with no interesting content, used to build concrete
session states. -/
def emptyApp : App :=
  { mode := .Main, input := "", cursor_pos := 0, jobs := [], selected_job := 0,
    current_job := none, status_message := none, error_message := none,
    should_quit := false, settings_selected := 0, settings_editing := false,
    generating := false, store := [] }

/-- A session whose stale selection index is 3 while the store is empty. -/
def staleApp : App := { emptyApp with selected_job := 3 }

/-- A session whose selection index is 5 while the store shrank to one job. -/
def shrinkApp : App := { emptyApp with selected_job := 5, store := [sampleJob] }

/-- Parameters of an edit action carrying a reference image. -/
def refParams : GenerateParams :=
  (GenerateParams.new "edit this").with_reference_image "refdata" "image/png"

/-- A response holding a single normal-stop candidate with two image
parts and one text part. -/
def respOne : GenerateResponse :=
  { candidates := some [okCandidate], prompt_feedback := none, usage_metadata := none }

/-- A response whose single candidate carries 257 image parts. -/
def resp257 : GenerateResponse :=
  { candidates := some
      [{ content := some
          { parts := List.replicate 257 (ContentPart.InlineData "image/png" "d")
            role := none }
         finish_reason := some "STOP"
         finish_message := none
         safety_ratings := none }]
    prompt_feedback := none
    usage_metadata := none }

/-- A response with a normal candidate, then a refusing one, then
another normal candidate. -/
def resp3 : GenerateResponse :=
  { candidates := some [okCandidate, refusalCandidate, okCandidate]
    prompt_feedback := none, usage_metadata := none }

/-! ### Concrete oracle environments used by the theorems -/

/-- A filesystem environment on which every operation fails; never
reached by the runs below. -/
def fsUnused : FsEnv :=
  { createDir := true, decode := fun _ => none, write := fun _ _ => false }

/-- A pipeline environment with no API key configured. -/
def noKeyEnv : PipelineEnv :=
  { apiKey := none, serviceResult := .error (.ApiError "unused"),
    autoDownload := false, outputDir := "out", fs := fsUnused }

/-- A pipeline environment whose service call fails with an API error;
the download phase is enabled but never reached. -/
def svcErrEnv : PipelineEnv :=
  { apiKey := some "k", serviceResult := .error (.ApiError "boom"),
    autoDownload := true, outputDir := "out", fs := fsUnused }

/-- An environment that fails to decode the payload "bad" and accepts
everything else. -/
def dlEnvBad : FsEnv :=
  { createDir := true
    decode := fun s => if s = "good" then some [7] else none
    write := fun _ _ => true }

/-- A job holding a bad-payload image before a good-payload image. -/
def dlJobBad : Job :=
  { sampleJob with images :=
      [{ index := 0, data := some "bad", path := none, mime_type := "image/png" },
       { index := 1, data := some "good", path := none, mime_type := "image/png" }] }

/-- A job holding a good-payload image before a bad-payload one. -/
def dlJobBad2 : Job :=
  { sampleJob with images :=
      [{ index := 0, data := some "good", path := none, mime_type := "image/png" },
       { index := 1, data := some "bad", path := none, mime_type := "image/jpeg" }] }

/-- An environment on which every decode and write succeeds. -/
def dlEnvOk : FsEnv :=
  { createDir := true, decode := fun _ => some [7], write := fun _ _ => true }

/-- A job holding one inline-payload image and one already-persisted
image (location set, payload cleared). -/
def dlJobOk : Job :=
  { sampleJob with images :=
      [{ index := 0, data := some "good", path := none, mime_type := "image/png" },
       { index := 1, data := none, path := some "out/x.png", mime_type := "image/webp" }] }

example : (sampleJob.set_completed 1).status = JobStatus.Completed := by decide

example : sampleJob.prompt_preview 40 = some "prompt" := by decide

example : sampleJob.prompt_preview 3 = some "..." := by decide

example : alphaJob.prompt_preview 4 = none := by decide

example :
    (process_response sampleJob
      { candidates := some [okCandidate], prompt_feedback := none,
        usage_metadata := none } 7).1.status = JobStatus.Completed := by decide

example :
    ((process_response sampleJob
      { candidates := some [okCandidate], prompt_feedback := none,
        usage_metadata := none } 7).1.images.map JobImage.index) = [0, 1] := by decide

example :
    (process_response sampleJob
      { candidates := some [okCandidate, refusalCandidate, okCandidate],
        prompt_feedback := none, usage_metadata := none } 7).1.status
      = JobStatus.Failed "blocked" := by decide

example :
    (process_response sampleJob
      { candidates := some [], prompt_feedback := none,
        usage_metadata := none } 7).1.status
      = JobStatus.Failed "No images generated" := by decide

theorem withImages_nil (job : Job) (now : Nat) : withImages job [] now = job := by
  cases job
  simp [withImages]

theorem withImages_append (job : Job) (a b : List JobImage) (now : Nat) :
    withImages (withImages job a now) b now = withImages job (a ++ b) now := by
  cases job
  cases a <;> cases b <;> simp [withImages, List.append_assoc]

theorem withImages_add_image (job : Job) (i : Nat) (d m : String) (now : Nat)
    (l : List JobImage) :
    withImages (job.add_image i d m now) l now =
      withImages job ({ index := i, data := some d, path := none, mime_type := m } :: l) now := by
  cases job
  simp [withImages, Job.add_image, List.append_assoc]

theorem indexedFrom_length (i : Nat) (xs : List (String × String)) :
    (indexedFrom i xs).length = xs.length := by
  induction xs generalizing i with
  | nil => rfl
  | cons x xs ih => cases x; simp [indexedFrom, ih]

theorem indexedFrom_append (i : Nat) (xs ys : List (String × String)) (h : i < 256) :
    indexedFrom i (xs ++ ys) =
      indexedFrom i xs ++ indexedFrom ((i + xs.length) % 256) ys := by
  induction xs generalizing i with
  | nil => simp [indexedFrom, Nat.mod_eq_of_lt h]
  | cons x xs ih =>
    cases x
    have ih' := ih ((i + 1) % 256) (Nat.mod_lt _ (by norm_num))
    simp only [List.cons_append, indexedFrom, List.length_cons, List.append_eq, ih']
    congr 3
    omega

theorem indexedFrom_getElem (i : Nat) (xs : List (String × String)) (h : i < 256) (k : Nat) :
    (indexedFrom i xs)[k]? =
      (xs[k]?).map (fun p =>
        { index := (i + k) % 256, data := some p.1, path := none, mime_type := p.2 }) := by
  induction xs generalizing i k with
  | nil => simp [indexedFrom]
  | cons x xs ih =>
    cases x
    cases k with
    | zero => simp [indexedFrom, Nat.mod_eq_of_lt h]
    | succ k =>
      simp only [indexedFrom, List.getElem?_cons_succ]
      rw [ih _ (Nat.mod_lt _ (by norm_num))]
      rcases hx : xs[k]? with _ | p <;> simp [hx]
      omega

theorem addParts_spec (now : Nat) (parts : List ContentPart) (job : Job) (i : Nat)
    (h : i < 256) :
    addParts job i now parts =
      (withImages job (indexedFrom i (partsImages parts)) now,
       (i + (partsImages parts).length) % 256) := by
  induction parts generalizing job i with
  | nil => simp [addParts, partsImages, indexedFrom, withImages_nil, Nat.mod_eq_of_lt h]
  | cons p parts ih =>
    cases p with
    | Text t => simpa [addParts, partsImages, List.filterMap_cons] using ih job i h
    | InlineData m d =>
      simp only [addParts, partsImages, List.filterMap_cons] at *
      rw [ih _ _ (Nat.mod_lt _ (by norm_num)), Prod.mk.injEq]
      refine ⟨?_, ?_⟩
      · rw [withImages_add_image]
        rfl
      · simp only [List.length_cons]
        omega

theorem candsImageParts_nil : candsImageParts [] = [] := rfl

theorem candsImageParts_cons (c : Candidate) (l : List Candidate) :
    candsImageParts (c :: l) = candidateImageParts c ++ candsImageParts l := by
  simp [candsImageParts]

theorem goCandidates_clean (now : Nat) (pre rest : List Candidate) (job : Job) (i : Nat)
    (h : i < 256) (hpre : ∀ c ∈ pre, isRefusal c = false) :
    goCandidates now job i (pre ++ rest) =
      goCandidates now (withImages job (indexedFrom i (candsImageParts pre)) now)
        ((i + (candsImageParts pre).length) % 256) rest := by
  induction pre generalizing job i with
  | nil =>
    simp [candsImageParts_nil, indexedFrom, withImages_nil, Nat.mod_eq_of_lt h]
  | cons c pre ih =>
    have hc : isRefusal c = false := hpre c (by simp)
    have hpre' : ∀ c' ∈ pre, isRefusal c' = false := fun c' hm => hpre c' (by simp [hm])
    simp only [List.cons_append, goCandidates, hc, Bool.false_eq_true, if_false]
    rcases hcon : c.content with _ | content
    · have hcip : candidateImageParts c = [] := by simp [candidateImageParts, hcon]
      show goCandidates now job i (pre ++ rest) = _
      rw [ih job i h hpre', candsImageParts_cons, hcip, List.nil_append]
    · have hcip : candidateImageParts c = partsImages content.parts := by
        simp [candidateImageParts, hcon]
      show goCandidates now (addParts job i now content.parts).1
        (addParts job i now content.parts).2 (pre ++ rest) = _
      rw [addParts_spec now content.parts job i h]
      show goCandidates now
        (withImages job (indexedFrom i (partsImages content.parts)) now)
        ((i + (partsImages content.parts).length) % 256) (pre ++ rest) = _
      rw [ih _ _ (Nat.mod_lt _ (by norm_num)) hpre']
      rw [withImages_append, candsImageParts_cons, hcip,
          indexedFrom_append i _ _ h]
      congr 1
      simp only [List.length_append]
      omega

/-! ### Claim C1 -/

/-- C1 counterexample: the claim that a terminal status is immutable
fails on the code — `set_running` called on a Completed job moves its
status back to Running. -/
theorem C1_counterexample :
    JobStatus.is_terminal (sampleJob.set_completed 1).status = true ∧
    ((sampleJob.set_completed 1).set_running 50 2).status ≠
      (sampleJob.set_completed 1).status := by
  decide

/-- C1 amended: the status setters are unconditional assignments — each
overwrites the current status with its target value regardless of the
current status, including from a terminal one, so terminal-state
immutability is not enforced by the Job operations; `add_image` never
changes the status. -/
theorem C1_amended (j : Job) (p : Nat) (e : String) (i : Nat) (d m : String) (now : Nat) :
    (j.set_running p now).status = .Running (min p 100) ∧
    (j.set_completed now).status = .Completed ∧
    (j.set_failed e now).status = .Failed e ∧
    (j.set_cancelled now).status = .Cancelled ∧
    (j.add_image i d m now).status = j.status :=
  ⟨rfl, rfl, rfl, rfl, rfl⟩

/-! ### Claim C5 -/

/-- C5: at the failing input — a four-character prompt of two-byte
characters (8 UTF-8 bytes) and `max_len = 4` — the prompt does not fit,
and `prompt_preview` slices the prompt at raw byte offset 1, which is not
a character boundary, so the code panics (modelled as `none`). -/
theorem C5_panic_eval :
    alphaJob.prompt_preview 4 = none ∧
    4 < alphaJob.params.prompt.utf8ByteSize := by
  decide

/-- C8 counterexample: when the backing list becomes empty, `load_jobs`
does not reset the selection index to 0 — a stale index 3 survives the
refresh to an empty list. -/
theorem C8_counterexample :
    (staleApp.load_jobs).jobs = [] ∧ (staleApp.load_jobs).selected_job = 3 := by
  decide

/-- Characterization of `App.load_jobs`: the list is refreshed from the
store and the selection is conditionally clamped. -/
theorem load_jobs_spec (app : App) :
    (app.load_jobs).jobs = app.store.take 50 ∧
    (app.load_jobs).selected_job =
      (if (app.store.take 50).length ≤ app.selected_job ∧ app.store.take 50 ≠ []
       then (app.store.take 50).length - 1 else app.selected_job) := by
  unfold App.load_jobs
  dsimp only
  split
  case isTrue h => exact ⟨rfl, rfl⟩
  case isFalse h => exact ⟨rfl, rfl⟩

/-- C8 amended: after a refresh, when the new backing list is nonempty
the selection index is clamped into `[0, len-1]` (it becomes
`min old (len-1)`); when the new list is empty the index is left
unchanged rather than reset to 0. -/
theorem C8_amended (app : App) :
    ((app.load_jobs).jobs ≠ [] →
      (app.load_jobs).selected_job =
        min app.selected_job ((app.load_jobs).jobs.length - 1) ∧
      (app.load_jobs).selected_job < (app.load_jobs).jobs.length) ∧
    ((app.load_jobs).jobs = [] →
      (app.load_jobs).selected_job = app.selected_job) := by
  obtain ⟨hj, hs⟩ := load_jobs_spec app
  constructor
  · intro hne
    rw [hj] at hne
    have hlen : 0 < (app.store.take 50).length := List.length_pos.mpr hne
    by_cases h : (app.store.take 50).length ≤ app.selected_job
    · rw [hs, if_pos ⟨h, hne⟩, hj]
      constructor <;> omega
    · rw [hs, if_neg (fun hc => h hc.1), hj]
      constructor <;> omega
  · intro hempty
    rw [hj] at hempty
    rw [hs, if_neg (fun hc => hc.2 hempty)]

/-- C8 amended, witness at concrete states: the shrunken nonempty list
clamps the index below its length; the emptied list leaves the stale
index unchanged. -/
theorem C8_amended_witness :
    (shrinkApp.load_jobs).selected_job < (shrinkApp.load_jobs).jobs.length ∧
    (staleApp.load_jobs).selected_job = staleApp.selected_job :=
  ⟨((C8_amended shrinkApp).1 (by decide)).2, (C8_amended staleApp).2 (by decide)⟩

/-! ### Claim C9 -/

/-- C9: when the reference-image payload (base64 bytes plus mime tag) is
present, the request built from the params has the inline-data part
first, before the text prompt; when no reference image is present, the
text prompt is the first (and only) content part. -/
theorem C9_request_part_order (params : GenerateParams) :
    (∀ d m, params.reference_image = some d → params.reference_mime_type = some m →
      (build_generate_request params).contents.map Content.parts =
        [[ContentPart.InlineData m d, ContentPart.Text params.prompt]]) ∧
    (params.reference_image = none →
      (build_generate_request params).contents.map Content.parts =
        [[ContentPart.Text params.prompt]]) := by
  constructor
  · intro d m hd hm
    simp [build_generate_request, hd, hm]
  · intro hd
    rcases hmt : params.reference_mime_type with _ | m <;>
      simp [build_generate_request, hd, hmt]

/-- C9 witness: for a concrete edit-action params, the built request's
first content part is the reference image, the prompt second. -/
theorem C9_witness :
    (build_generate_request refParams).contents.map Content.parts =
      [[ContentPart.InlineData "image/png" "refdata", ContentPart.Text "edit this"]] :=
  (C9_request_part_order refParams).1 "refdata" "image/png" rfl rfl

/-! ### Claim C10 -/

/-- C10: the selected-job accessor is total — whenever the selection
index is at or beyond the length of the job list (including the empty
list) it returns `none`, and the main-mode actions that read the
selection (open detail on Enter, delete on d) leave the state unchanged. -/
theorem C10_selected_total (app : App) (h : app.jobs.length ≤ app.selected_job) :
    app.selectedJob = none ∧
    handle_main_input app .Enter = app ∧
    handle_main_input app (.Char 'd') = app := by
  have hnone : app.selectedJob = none := by
    simp [App.selectedJob, List.getElem?_eq_none h]
  refine ⟨hnone, ?_, ?_⟩
  · simp [handle_main_input, hnone]
  · simp [handle_main_input, hnone]

/-- C10 witness: on the empty session state the accessor returns none
and Enter/delete are no-ops. -/
theorem C10_witness :
    emptyApp.selectedJob = none ∧
    handle_main_input emptyApp .Enter = emptyApp ∧
    handle_main_input emptyApp (.Char 'd') = emptyApp :=
  C10_selected_total emptyApp (by decide)

/-! ### Claim C2 -/

/-- C2 amended: starting from a job with no images, when no candidate
carries a refusal indicator: if the response holds no image parts the job
is marked Failed ("No images generated") and an error is returned;
otherwise the run succeeds, the job is Completed and holds exactly one
image per image part, in encounter order, the k-th image carrying index
`k % 256` (the index counter is a u8 and wraps; indices are `0..N-1`
whenever `N ≤ 256`). -/
theorem C2_amended (job : Job) (resp : GenerateResponse) (now : Nat)
    (hempty : job.images = [])
    (hclean : ∀ c ∈ resp.candidates.getD [], isRefusal c = false) :
    (responseImageParts resp = [] →
      process_response job resp now =
        ({ job with status := .Failed "No images generated", updated_at := now },
         .error (.GenerationFailed "No images in response"))) ∧
    (responseImageParts resp ≠ [] →
      (process_response job resp now).2 = .ok () ∧
      (process_response job resp now).1.status = .Completed ∧
      (process_response job resp now).1.images.length = (responseImageParts resp).length ∧
      ∀ k, (process_response job resp now).1.images[k]? =
        ((responseImageParts resp)[k]?).map (fun p =>
          ({ index := k % 256, data := some p.1, path := none,
             mime_type := p.2 } : JobImage))) := by
  have key : process_response job resp now =
      goCandidates now (withImages job (indexedFrom 0 (responseImageParts resp)) now)
        ((0 + (responseImageParts resp).length) % 256) [] := by
    unfold process_response responseImageParts
    have h := goCandidates_clean now (resp.candidates.getD []) [] job 0 (by norm_num) hclean
    simpa using h
  have himgs : (withImages job (indexedFrom 0 (responseImageParts resp)) now).images =
      indexedFrom 0 (responseImageParts resp) := by
    simp [withImages, hempty]
  constructor
  · intro h0
    rw [key, h0]
    have hw : withImages job (indexedFrom 0 ([] : List (String × String))) now = job := by
      simpa [indexedFrom] using withImages_nil job now
    rw [hw]
    have hemp : job.images.isEmpty = true := by rw [hempty]; rfl
    simp only [goCandidates, hemp, if_true]
    rfl
  · intro hne
    have hnil : indexedFrom 0 (responseImageParts resp) ≠ [] := by
      intro hh
      apply hne
      have hl := indexedFrom_length 0 (responseImageParts resp)
      rw [hh] at hl
      exact List.length_eq_zero.mp hl.symm
    have hok : (withImages job (indexedFrom 0 (responseImageParts resp)) now).images.isEmpty
        = false := by
      rw [himgs]
      exact List.isEmpty_eq_false.mpr hnil
    have heq : process_response job resp now =
        ((withImages job (indexedFrom 0 (responseImageParts resp)) now).set_completed now,
         .ok ()) := by
      rw [key]
      simp only [goCandidates, hok, Bool.false_eq_true, if_false]
    refine ⟨by rw [heq], by rw [heq]; rfl, ?_, ?_⟩
    · rw [heq]
      show (withImages job (indexedFrom 0 (responseImageParts resp)) now).images.length = _
      rw [himgs, indexedFrom_length]
    · intro k
      rw [heq]
      show (withImages job (indexedFrom 0 (responseImageParts resp)) now).images[k]? = _
      rw [himgs, indexedFrom_getElem 0 (responseImageParts resp) (by norm_num) k]
      simp

/-- C2 witness: for the concrete two-image response, the run succeeds and
the first collected image carries index 0 and the first payload. -/
theorem C2_amended_witness :
    (process_response sampleJob respOne 7).2 = .ok () ∧
    (process_response sampleJob respOne 7).1.images[0]? =
      some { index := 0, data := some "d0", path := none, mime_type := "image/png" } := by
  have h := (C2_amended sampleJob respOne 7 rfl (by decide)).2 (by decide)
  refine ⟨h.1, ?_⟩
  rw [h.2.2.2 0]
  decide

set_option maxRecDepth 100000 in
set_option maxHeartbeats 2000000 in
/-- C2 counterexample: for a refusal-free response with 257 image parts,
the job completes with 257 images but the u8 index counter wraps — the
image at position 256 carries index 0, so the indices are not `0..N-1`
as the claim states. -/
theorem C2_counterexample :
    (process_response sampleJob resp257 1).1.status = JobStatus.Completed ∧
    (process_response sampleJob resp257 1).1.images.length = 257 ∧
    ¬ (∀ k, k < (process_response sampleJob resp257 1).1.images.length →
        ((process_response sampleJob resp257 1).1.images[k]?).map JobImage.index
          = some k) := by
  refine ⟨by decide, by decide, fun h => ?_⟩
  have h256 := h 256 (by decide)
  exact absurd h256 (by decide)

/-! ### Claim C3 -/

/-- C3: when the candidates are a refusal-free prefix, then a candidate
whose finish indicator is present and neither STOP nor MAX_TOKENS, the
run marks the job Failed with that candidate's refusal message (or the
default message when none is given), returns the matching error, keeps
the images appended from the earlier candidates, and appends nothing from
the refusing candidate or any later one. -/
theorem C3_refusal_stops (job : Job) (resp : GenerateResponse) (now : Nat)
    (pre post : List Candidate) (c : Candidate)
    (hc : resp.candidates = some (pre ++ c :: post))
    (hpre : ∀ x ∈ pre, isRefusal x = false)
    (href : isRefusal c = true) :
    process_response job resp now =
      ({ job with images := job.images ++ indexedFrom 0 (candsImageParts pre),
                  status := .Failed (c.finish_message.getD defaultRefusalMsg),
                  updated_at := now },
       .error (.GenerationFailed (c.finish_message.getD defaultRefusalMsg))) := by
  unfold process_response
  rw [hc]
  show goCandidates now job 0 (pre ++ c :: post) = _
  rw [goCandidates_clean now pre (c :: post) job 0 (by norm_num) hpre]
  simp only [goCandidates, href, if_true]
  cases job
  simp [withImages, Job.set_failed]

/-- C3 witness: with a refusal in the middle, the job ends Failed with
the refusal message "blocked", holding exactly the two images of the
first candidate and none from the refusing or later candidates. -/
theorem C3_refusal_witness :
    process_response sampleJob resp3 7 =
      ({ sampleJob with
          images := sampleJob.images ++ indexedFrom 0 (candsImageParts [okCandidate]),
          status := .Failed "blocked",
          updated_at := 7 },
       .error (.GenerationFailed "blocked")) :=
  C3_refusal_stops sampleJob resp3 7 [okCandidate] [okCandidate] refusalCandidate
    rfl (by decide) (by decide)

/-- C4 counterexample: with no API key configured, the batch `generate`
run returns the missing-credential error while the only persisted record
is still the initial Queued snapshot — the store does not reflect the
failure when the error reaches the caller. -/
theorem C4_counterexample :
    (cliGenerateRun noKeyEnv sampleJob 1).result = .error (.pipeErr .MissingApiKey) ∧
    (cliGenerateRun noKeyEnv sampleJob 1).persisted.map Job.status = [.Queued] :=
  ⟨rfl, rfl⟩

/-- Shape of a batch run whose service call fails. -/
theorem cliGenerateRun_svcError (env : PipelineEnv) (job0 : Job) (now : Nat)
    (key : String) (e : BananaError)
    (hk : env.apiKey = some key) (hs : env.serviceResult = .error e) :
    cliGenerateRun env job0 now =
      ⟨[job0, job0.set_running 0 now,
        (job0.set_running 0 now).set_failed e.toMessage now],
       (job0.set_running 0 now).set_failed e.toMessage now,
       .error (.pipeErr e)⟩ := by
  unfold cliGenerateRun
  simp only [hk, hs]
  rfl

/-- Shape of a batch run whose response processing fails. -/
theorem cliGenerateRun_procError (env : PipelineEnv) (job0 : Job) (now : Nat)
    (key : String) (response : GenerateResponse) (e : BananaError)
    (hk : env.apiKey = some key) (hs : env.serviceResult = .ok response)
    (hp : (process_response (job0.set_running 0 now) response now).2 = .error e) :
    cliGenerateRun env job0 now =
      ⟨[job0, job0.set_running 0 now,
        ((process_response (job0.set_running 0 now) response now).1).set_failed
          e.toMessage now],
       ((process_response (job0.set_running 0 now) response now).1).set_failed
         e.toMessage now,
       .error (.pipeErr e)⟩ := by
  unfold cliGenerateRun
  simp only [hk, hs, hp]
  rfl

/-- A batch run whose service call and response processing succeed never
returns a pipeline error: whatever the download setting, it either
succeeds or returns a download error. -/
theorem cliGenerateRun_okResult (env : PipelineEnv) (job0 : Job) (now : Nat)
    (key : String) (response : GenerateResponse) (u : Unit)
    (hk : env.apiKey = some key) (hs : env.serviceResult = .ok response)
    (hp : (process_response (job0.set_running 0 now) response now).2 = .ok u) :
    (cliGenerateRun env job0 now).result = .ok () ∨
    ∃ msg, (cliGenerateRun env job0 now).result = .error (.downloadErr msg) := by
  unfold cliGenerateRun
  simp only [hk, hs, hp]
  rcases hnd : env.autoDownload with _ | _
  · left
    simp [hnd]
  · rcases hdl : (download_images env.fs
        (process_response (job0.set_running 0 now) response now).1
        env.outputDir).result with msg | paths
    · right
      exact ⟨msg, by simp [hnd, hdl]⟩
    · left
      simp [hnd, hdl]

/-- C4 amended: in the batch pipeline, when an API key is configured,
every pipeline error propagated to the caller — an error of the service
call or of the response interpretation, whatever the download setting —
has already been persisted: the job is in a terminal Failed state
carrying the error's message and that job is the last snapshot written
to the store. A missing-credential error, by contrast, is returned with
the store still holding only the Queued record (see the counterexample);
download-phase errors are a distinct error class reported independently
of job status. -/
theorem C4_amended (env : PipelineEnv) (job0 : Job) (now : Nat) (b : BananaError)
    (hkey : env.apiKey.isSome = true)
    (herr : (cliGenerateRun env job0 now).result = .error (.pipeErr b)) :
    (cliGenerateRun env job0 now).job.status = .Failed b.toMessage ∧
    (cliGenerateRun env job0 now).persisted.getLast? =
      some (cliGenerateRun env job0 now).job := by
  rcases hk : env.apiKey with _ | key
  · rw [hk] at hkey
    simp at hkey
  · rcases hs : env.serviceResult with e0 | response
    · have hrun := cliGenerateRun_svcError env job0 now key e0 hk hs
      rw [hrun] at herr ⊢
      simp only [Except.error.injEq, RunError.pipeErr.injEq] at herr
      subst herr
      exact ⟨rfl, rfl⟩
    · rcases hp : (process_response (job0.set_running 0 now) response now).2 with e0 | u
      · have hrun := cliGenerateRun_procError env job0 now key response e0 hk hs hp
        rw [hrun] at herr ⊢
        simp only [Except.error.injEq, RunError.pipeErr.injEq] at herr
        subst herr
        exact ⟨rfl, rfl⟩
      · rcases cliGenerateRun_okResult env job0 now key response u hk hs hp with
          hok | ⟨msg, hdl⟩
        · simp [hok] at herr
        · simp [hdl] at herr

/-- C4 amended, witness: a concrete failing service call leaves the job
Failed with the API error message, and that job is the last persisted
snapshot. -/
theorem C4_amended_witness :
    (cliGenerateRun svcErrEnv sampleJob 1).job.status =
      .Failed (BananaError.ApiError "boom").toMessage ∧
    (cliGenerateRun svcErrEnv sampleJob 1).persisted.getLast? =
      some (cliGenerateRun svcErrEnv sampleJob 1).job :=
  C4_amended svcErrEnv sampleJob 1 (.ApiError "boom") rfl (by rfl)

/-! ### Claims C6 and C7: the download loop -/

/-- Shape of the download loop when the step for every image succeeds:
each image is transformed by `dlOne`, the paths are collected and the
writes performed, with no error. -/
theorem dlGo_ok (env : FsEnv) (jobId outputDir : String) (l : List JobImage)
    (hok : ∀ p ∈ l, dlOk env jobId outputDir p = true) :
    dlGo env jobId outputDir l =
      ⟨l.map (dlOne jobId outputDir), dlPaths jobId outputDir l,
       dlWrites env jobId outputDir l, none⟩ := by
  induction l with
  | nil => rfl
  | cons p l ih =>
    have hp := hok p (by simp)
    have hok' : ∀ q ∈ l, dlOk env jobId outputDir q = true :=
      fun q hq => hok q (by simp [hq])
    rcases hd : p.data with _ | data
    · simp [dlGo, hd, ih hok', dlOne, dlPaths, dlWrites]
    · rcases hdec : env.decode data with _ | bytes
      · simp [dlOk, hd, hdec] at hp
      · have hw : env.write (imagePathFor outputDir jobId p.index p.mime_type) bytes
            = true := by
          simpa only [dlOk, hd, hdec] using hp
        simp [dlGo, hd, hdec, hw, ih hok', dlOne, dlPaths, dlWrites]

/-- Shape of the download loop up to the first failing image: the
successful prefix is transformed and its writes remain on disk, while
the failing image and everything after it is left untouched. -/
theorem dlGo_fail (env : FsEnv) (jobId outputDir : String)
    (pre suf : List JobImage) (img : JobImage)
    (hpre : ∀ p ∈ pre, dlOk env jobId outputDir p = true)
    (himg : dlOk env jobId outputDir img = false) :
    dlGo env jobId outputDir (pre ++ img :: suf) =
      ⟨pre.map (dlOne jobId outputDir) ++ img :: suf,
       dlPaths jobId outputDir pre, dlWrites env jobId outputDir pre,
       some (dlFailMsg env img)⟩ := by
  induction pre with
  | nil =>
    rcases hd : img.data with _ | data
    · simp [dlOk, hd] at himg
    · rcases hdec : env.decode data with _ | bytes
      · simp [dlGo, hd, hdec, dlFailMsg, dlPaths, dlWrites]
      · have hw : env.write (imagePathFor outputDir jobId img.index img.mime_type) bytes
            = false := by
          simpa only [dlOk, hd, hdec] using himg
        simp [dlGo, hd, hdec, hw, dlFailMsg, dlPaths, dlWrites]
  | cons p pre ih =>
    have hp := hpre p (by simp)
    have hpre' : ∀ q ∈ pre, dlOk env jobId outputDir q = true :=
      fun q hq => hpre q (by simp [hq])
    rcases hd : p.data with _ | data
    · simp [dlGo, hd, ih hpre', dlOne, dlPaths, dlWrites]
    · rcases hdec : env.decode data with _ | bytes
      · simp [dlOk, hd, hdec] at hp
      · have hw : env.write (imagePathFor outputDir jobId p.index p.mime_type) bytes
            = true := by
          simpa only [dlOk, hd, hdec] using hp
        simp [dlGo, hd, hdec, hw, ih hpre', dlOne, dlPaths, dlWrites]

/-- The download loop is the identity, collecting nothing and writing
nothing, on a list of images that hold no inline payload. -/
theorem dlGo_nodata (env : FsEnv) (jobId outputDir : String) (l : List JobImage)
    (h : ∀ p ∈ l, p.data = none) :
    dlGo env jobId outputDir l = ⟨l, [], [], none⟩ := by
  induction l with
  | nil => rfl
  | cons p l ih =>
    have hp := h p (by simp)
    have h' : ∀ q ∈ l, q.data = none := fun q hq => h q (by simp [hq])
    simp [dlGo, hp, ih h']

/-- C6 counterexample: when decoding the first image fails, the download
phase surfaces the error and does not alter the job status — but,
contrary to the claim, it also aborts the remaining downloads: the
second, perfectly decodable image is left with its inline payload and no
persisted location. -/
theorem C6_counterexample :
    (download_images dlEnvBad dlJobBad "out").result =
      .error "Failed to decode base64 image" ∧
    (download_images dlEnvBad dlJobBad "out").job.images[1]? =
      some { index := 1, data := some "good", path := none, mime_type := "image/png" } ∧
    (download_images dlEnvBad dlJobBad "out").job.status = dlJobBad.status ∧
    (download_images dlEnvBad dlJobBad "out").writes = [] := by
  refine ⟨?_, ?_, ?_, ?_⟩ <;> rfl

/-- C6 amended: a decode or write failure aborts the download phase at
the failing image — the job status is unchanged, images already
downloaded in this run keep their recorded locations and their files
remain on disk (no rollback), the failing image and all remaining images
are left untouched, and the error is surfaced to the caller. -/
theorem C6_amended (env : FsEnv) (job : Job) (outputDir : String)
    (pre suf : List JobImage) (img : JobImage)
    (hsplit : job.images = pre ++ img :: suf)
    (hcd : env.createDir = true)
    (hpre : ∀ p ∈ pre, dlOk env job.id outputDir p = true)
    (himg : dlOk env job.id outputDir img = false) :
    download_images env job outputDir =
      ⟨{ job with images := pre.map (dlOne job.id outputDir) ++ img :: suf },
       .error (dlFailMsg env img),
       dlWrites env job.id outputDir pre⟩ := by
  unfold download_images
  rw [hcd, hsplit, dlGo_fail env job.id outputDir pre suf img hpre himg]
  rfl

/-- C6 amended, witness: with a failure at the second image, the first
image was downloaded (location recorded, write kept) and the second is
untouched, with the decode error surfaced. -/
theorem C6_amended_witness :
    download_images dlEnvBad dlJobBad2 "out" =
      ⟨{ dlJobBad2 with images :=
          [{ index := 0, data := none, path := some "out/bn_sample01_0.png",
             mime_type := "image/png" },
           { index := 1, data := some "bad", path := none, mime_type := "image/jpeg" }] },
       .error "Failed to decode base64 image",
       [("out/bn_sample01_0.png", [7])]⟩ := by
  have h := C6_amended dlEnvBad dlJobBad2 "out"
    [{ index := 0, data := some "good", path := none, mime_type := "image/png" }]
    []
    { index := 1, data := some "bad", path := none, mime_type := "image/jpeg" }
    rfl rfl (by decide) (by decide)
  rw [h]
  rfl

/-- C7: the download phase is idempotent per image. Under the artifact
invariant (a persisted location implies no inline payload), when every
step succeeds: the run returns the collected paths; images whose
persisted location was already set are left untouched; every image that
held an inline payload ends with its location recorded and its payload
cleared; and a second run leaves the job unchanged, collects no paths
and writes no files (so no duplicates). -/
theorem C7_idempotent (env : FsEnv) (job : Job) (outputDir : String)
    (hcd : env.createDir = true)
    (hok : ∀ p ∈ job.images, dlOk env job.id outputDir p = true)
    (hinv : ∀ p ∈ job.images, p.path.isSome = true → p.data = none) :
    (download_images env job outputDir).result =
      .ok (dlPaths job.id outputDir job.images) ∧
    (download_images env job outputDir).job.images =
      job.images.map (dlOne job.id outputDir) ∧
    (∀ (k : Nat) (img : JobImage), job.images[k]? = some img → img.path.isSome = true →
      (download_images env job outputDir).job.images[k]? = some img) ∧
    (∀ (k : Nat) (img : JobImage), job.images[k]? = some img → img.data.isSome = true →
      (download_images env job outputDir).job.images[k]? =
        some { index := img.index, data := none,
               path := some (imagePathFor outputDir job.id img.index img.mime_type),
               mime_type := img.mime_type }) ∧
    download_images env (download_images env job outputDir).job outputDir =
      ⟨(download_images env job outputDir).job, .ok [], []⟩ := by
  have hrun : download_images env job outputDir =
      ⟨{ job with images := job.images.map (dlOne job.id outputDir) },
       .ok (dlPaths job.id outputDir job.images),
       dlWrites env job.id outputDir job.images⟩ := by
    unfold download_images
    rw [hcd, dlGo_ok env job.id outputDir job.images hok]
    rfl
  refine ⟨by rw [hrun], by rw [hrun], ?_, ?_, ?_⟩
  · intro k img hk hpath
    have hmem : img ∈ job.images := List.getElem?_mem hk
    have hdata : img.data = none := hinv img hmem hpath
    rw [hrun]
    show (job.images.map (dlOne job.id outputDir))[k]? = some img
    rw [List.getElem?_map, hk]
    simp [dlOne, hdata]
  · intro k img hk hdata
    rcases hd : img.data with _ | d
    · rw [hd] at hdata
      exact absurd hdata (by simp)
    · rw [hrun]
      show (job.images.map (dlOne job.id outputDir))[k]? = _
      rw [List.getElem?_map, hk]
      simp [dlOne, hd]
  · have hnone : ∀ q ∈ (download_images env job outputDir).job.images, q.data = none := by
      rw [hrun]
      intro q hq
      rcases List.mem_map.mp hq with ⟨p, _, hp⟩
      rcases hd : p.data with _ | d
      · rw [← hp]
        simp [dlOne, hd]
      · rw [← hp]
        simp [dlOne, hd]
    have hsecond : ∀ j : Job, (∀ q ∈ j.images, q.data = none) →
        download_images env j outputDir = ⟨j, .ok [], []⟩ := by
      intro j hj
      unfold download_images
      rw [hcd, dlGo_nodata env j.id outputDir j.images hj]
      rfl
    exact hsecond _ hnone

/-- C7 witness: on the concrete two-image job, the run collects exactly
the new file's path, leaves the already-persisted image untouched, and a
second run changes nothing and writes nothing. -/
theorem C7_idempotent_witness :
    (download_images dlEnvOk dlJobOk "out").result = .ok ["out/bn_sample01_0.png"] ∧
    (download_images dlEnvOk dlJobOk "out").job.images[1]? =
      some { index := 1, data := none, path := some "out/x.png",
             mime_type := "image/webp" } ∧
    download_images dlEnvOk (download_images dlEnvOk dlJobOk "out").job "out" =
      ⟨(download_images dlEnvOk dlJobOk "out").job, .ok [], []⟩ := by
  have h := C7_idempotent dlEnvOk dlJobOk "out" rfl (by decide) (by decide)
  refine ⟨?_, ?_, h.2.2.2.2⟩
  · rw [h.1]
    rfl
  · exact h.2.2.1 1
      { index := 1, data := none, path := some "out/x.png", mime_type := "image/webp" }
      (by rfl) (by rfl)

end NanoBanana
